import Mathlib

/-!
Verification of the benchmark text runner (perf/text_runner.py).

Durations measured by the runner are modelled as exact rationals, machine
loop counts as naturals.  Stateful Python objects are modelled by explicit
state passing; functions that can raise model their result as Except.
-/

set_option maxHeartbeats 1000000
set_option linter.unusedVariables false

/-! ## Calibration (TextRunner._calibrate_sample_func) -/

/-- One pass of the calibration loop of `TextRunner._calibrate_sample_func`:
the remaining candidate exponents are tried in order; `last` is the loop
count assigned by the most recent iteration (the value left in the Python
variable `loops` when the `for` loop falls through).  For each candidate
`index`, `loops = 10 ^ index` and `dt = sample_func loops`; if
`dt >= max_dt` the previous decade (clamped at `10 ^ 0`) is returned, if
`dt >= min_dt` the current decade is returned, otherwise the search
continues. -/
def calibrate_go (sample_func : Nat → ℚ) (min_dt max_dt : ℚ) :
    List Nat → Nat → Nat
  | [], last => last
  | index :: rest, _ =>
    if max_dt ≤ sample_func (10 ^ index) then 10 ^ (index - 1)
    else if min_dt ≤ sample_func (10 ^ index) then 10 ^ index
    else calibrate_go sample_func min_dt max_dt rest (10 ^ index)

/-- `TextRunner._calibrate_sample_func`: tries `10 ^ 0, …, 10 ^ 9` with
`min_dt = min_time * 0.90` and `max_dt = max_time`. -/
def calibrate_sample_func (sample_func : Nat → ℚ) (min_time max_time : ℚ) : Nat :=
  calibrate_go sample_func (min_time * (9 / 10)) max_time (List.range 10) 1

/-- The calibration result as the specification words it for a linear timed
operation `timedOp loops = loops * k`: the smallest `10 ^ i` with
`10 ^ i * k ≥ 0.9 * minTime`, demoted one decade (clamped at `10 ^ 0`) when
that candidate already reaches `maxTime`; `10 ^ 9` when no candidate reaches
either threshold. -/
def calibrate_spec (k min_time max_time : ℚ) : Nat :=
  match (List.range 10).find? (fun i => decide (min_time * (9 / 10) ≤ (10 : ℚ) ^ i * k)) with
  | some i => if max_time ≤ (10 : ℚ) ^ i * k then 10 ^ (i - 1) else 10 ^ i
  | none => 10 ^ 9

theorem calibrate_go_eq_find (sample_func : Nat → ℚ) (min_dt max_dt : ℚ)
    (hmm : min_dt ≤ max_dt) (l : List Nat) :
    ∀ d : Nat,
      calibrate_go sample_func min_dt max_dt l (10 ^ d) =
        match l.find? (fun i => decide (min_dt ≤ sample_func (10 ^ i))) with
        | some i =>
            if max_dt ≤ sample_func (10 ^ i) then 10 ^ (i - 1) else 10 ^ i
        | none => 10 ^ (l.getLastD d) := by
  induction l with
  | nil => intro d; simp [calibrate_go]
  | cons index rest ih =>
    intro d
    by_cases hmin : min_dt ≤ sample_func (10 ^ index)
    · by_cases hmax : max_dt ≤ sample_func (10 ^ index)
      · simp [calibrate_go, List.find?_cons, hmin, hmax]
      · simp [calibrate_go, List.find?_cons, hmin, hmax]
    · have hmax : ¬ max_dt ≤ sample_func (10 ^ index) := fun h =>
        hmin (le_trans hmm h)
      simp only [calibrate_go, List.find?_cons, hmin, hmax, decide_False,
        if_false, List.getLastD_cons]
      exact ih index

theorem range_ten_getLastD : (List.range 10).getLastD 0 = 9 := by decide

/-- C1 (amended): provided `0.9 * minTime ≤ maxTime`, for every timed
operation with `timedOp loops = loops * k`, `k > 0`, calibration tries
`10 ^ 0, …, 10 ^ 9` in order and returns the smallest `10 ^ i` such that
`10 ^ i * k ≥ 0.9 * minTime`, unless that candidate satisfies
`10 ^ i * k ≥ maxTime`, in which case `10 ^ (i - 1)` is returned
(`10 ^ 0` when `i = 0`); when no candidate reaches either threshold the
last tried value `10 ^ 9` is returned. -/
theorem calibrate_linear_matches_spec (k min_time max_time : ℚ)
    (hk : 0 < k) (hmm : min_time * (9 / 10) ≤ max_time) :
    calibrate_sample_func (fun loops => (loops : ℚ) * k) min_time max_time =
      calibrate_spec k min_time max_time := by
  have h1 : (1 : ℕ) = 10 ^ 0 := rfl
  rw [calibrate_sample_func, h1,
    calibrate_go_eq_find (fun loops => (loops : ℚ) * k) _ _ hmm (List.range 10) 0]
  have hfun : (fun i => decide (min_time * (9 / 10) ≤ ((10 ^ i : ℕ) : ℚ) * k)) =
      (fun i => decide (min_time * (9 / 10) ≤ (10 : ℚ) ^ i * k)) := by
    funext i
    rw [Nat.cast_pow, Nat.cast_ofNat]
  rw [calibrate_spec, range_ten_getLastD]
  simp only [Nat.cast_pow, Nat.cast_ofNat, hfun]

/-- C1 counterexample: with `minTime = 100` and `maxTime = 1` (so that
`0.9 * minTime > maxTime`) and `timedOp loops = loops * 1`, the code
returns `10 ^ 0 = 1` (the max-time check fires at the very first decade),
while the value described by the claim is `10 ^ 1 = 10`. -/
theorem calibrate_linear_claim_false :
    calibrate_sample_func (fun loops => (loops : ℚ) * 1) 100 1 = 1 ∧
    calibrate_spec 1 100 1 = 10 ∧
    calibrate_sample_func (fun loops => (loops : ℚ) * 1) 100 1 ≠
      calibrate_spec 1 100 1 := by
  refine ⟨?_, ?_, ?_⟩
  · norm_num [calibrate_sample_func, calibrate_go, List.range_succ]
  · norm_num [calibrate_spec, List.range_succ, List.find?]
  · norm_num [calibrate_sample_func, calibrate_go, calibrate_spec,
      List.range_succ, List.find?]

/-- C1 witness: the spec example `k = 1/10000`, `minTime = 1/10`,
`maxTime = 1` satisfies the hypotheses, and both sides give 1000 loops. -/
theorem calibrate_linear_matches_spec_witness :
    calibrate_sample_func (fun loops => (loops : ℚ) * (1 / 10000)) (1 / 10) 1 =
      calibrate_spec (1 / 10000) (1 / 10) 1 :=
  calibrate_linear_matches_spec (1 / 10000) (1 / 10) 1 (by norm_num) (by norm_num)

theorem calibrate_example_value :
    calibrate_sample_func (fun loops => (loops : ℚ) * (1 / 10000)) (1 / 10) 1 = 1000 := by
  norm_num [calibrate_sample_func, calibrate_go, List.range_succ]

/-! ## Benchmark data model

The runner consumes and produces `perf.Benchmark` values.  Only the fields
the runner touches are modelled: the `warmups`/`loops` configuration and
the ordered list of collected runs, each run an ordered list of sample
durations. -/

structure Benchmark where
  name : Option String := none
  warmups : Nat := 1
  loops : Nat := 0
  runs : List (List ℚ) := []
deriving DecidableEq

/-- Modelled from the spec: `perf.Benchmark.add_run` (not under src/) appends
one Run to the aggregate, "insertion order = collection order". -/
def Benchmark.add_run (b : Benchmark) (samples : List ℚ) : Benchmark :=
  { b with runs := b.runs ++ [samples] }

/-- Modelled from the spec: `perf.Benchmark.get_nrun` (not under src/), the
number of collected runs. -/
def Benchmark.get_nrun (b : Benchmark) : Nat :=
  b.runs.length

/-- Modelled from the spec: `perf.Benchmark.get_samples` (not under src/),
the measurement samples of every run in order, "the first `warmups` entries
are warmup samples and are excluded from statistics". -/
def Benchmark.get_samples (b : Benchmark) : List ℚ :=
  (b.runs.map (fun r => r.drop b.warmups)).flatten

/-- Modelled from the spec: `perf.Benchmark._get_raw_samples` (not under
src/), every sample of every run, warmups included ("the minimum raw sample
duration across the run (including warmups)"). -/
def Benchmark.raw_samples (b : Benchmark) : List ℚ :=
  b.runs.flatten

/-! ## Stability analyzer (_warn_if_bench_unstable) -/

/-- Modelled from the spec: `bench.median()` (not under src/) is Python
`statistics.median` over the measurement samples: the middle element of the
sorted data for odd length, the average of the two middle elements for even
length, an error for empty data. -/
def median? (l : List ℚ) : Option ℚ :=
  if l.length = 0 then none
  else
    let s := l.insertionSort (· ≤ ·)
    if l.length % 2 = 1 then some (s.getD (l.length / 2) 0)
    else some ((s.getD (l.length / 2 - 1) 0 + s.getD (l.length / 2) 0) / 2)

/-- Python `statistics.mean`. -/
def mean (l : List ℚ) : ℚ :=
  l.sum / l.length

/-- The square of Python `statistics.stdev`: the sample variance
`Σ (x - mean)² / (n - 1)`.  `statistics.stdev` itself is its square root,
which need not be rational; theorems about the dispersion check take the
standard deviation as an input pinned by this definition. -/
def sample_variance (l : List ℚ) : ℚ :=
  (l.map (fun x => (x - mean l) ^ 2)).sum / ((l.length - 1 : ℕ) : ℚ)

/-- A graded stability verdict of one check of `_warn_if_bench_unstable`:
`error` for the ERROR prints, `warn` for the WARNING prints, `stable` when
the check passes (printed only at high verbosity). -/
inductive Verdict
  | stable
  | warn
  | error
deriving DecidableEq

/-- `_warn_if_bench_unstable`, as a function from the benchmark and the
standard deviation of its measurement samples to either a raised error
(`ValueError` for a run-less benchmark, `statistics.StatisticsError` for
empty data, `ValueError` from `min` of an empty sequence) or the pair of
the dispersion verdict (`none` when that check is skipped because the
median is zero or there are at most one sample) and the minimum-duration
verdict. -/
def warn_if_bench_unstable (bench : Benchmark) (stdev : ℚ) :
    Except String (Option Verdict × Verdict) :=
  if bench.get_nrun = 0 then .error "benchmark has no run"
  else
    match median? bench.get_samples with
    | none => .error "no median for empty data"
    | some median =>
      let dispersion : Option Verdict :=
        if median ≠ 0 ∧ 1 < bench.get_samples.length then
          some (if 1 / 10 < stdev / median then
                  (if 1 / 5 < stdev / median then .error else .warn)
                else .stable)
        else none
      match bench.raw_samples.min? with
      | none => .error "min arg is an empty sequence"
      | some shortest =>
        .ok (dispersion,
          if shortest < 1 / 1000 then
            (if shortest < 1 / 1000000 then .error else .warn)
          else .stable)

theorem median?_length_ne_zero (l : List ℚ) (m : ℚ) (h : median? l = some m) :
    l.length ≠ 0 := by
  intro h0
  rw [median?] at h
  simp [h0] at h

theorem get_samples_length_le (b : Benchmark) :
    b.get_samples.length ≤ b.raw_samples.length := by
  unfold Benchmark.get_samples Benchmark.raw_samples
  rw [List.length_flatten, List.length_flatten, List.map_map]
  refine List.sum_le_sum ?_
  intro r _
  simp [List.length_drop]

theorem raw_min?_isSome (b : Benchmark) (m : ℚ)
    (hmed : median? b.get_samples = some m) :
    ∃ s, b.raw_samples.min? = some s := by
  have hlen : b.get_samples.length ≠ 0 := median?_length_ne_zero _ _ hmed
  have hle := get_samples_length_le b
  cases hl : b.raw_samples with
  | nil =>
    rw [hl] at hle
    simp at hle
    exact absurd (by simp [hle]) hlen
  | cons a as =>
    refine ⟨as.foldl min a, ?_⟩
    simp [List.min?]

/-- C2: with more than one measurement sample and a nonzero median `m`, and
`stdev` the standard deviation of the measurement samples, the dispersion
verdict is Error exactly when `stdev / m > 1/5`, Warn exactly when
`1/10 < stdev / m ≤ 1/5`, Stable otherwise; the check is skipped (verdict
component `none`) when the median is 0 or there is at most one sample. -/
theorem dispersion_check_thresholds (bench : Benchmark) (stdev m : ℚ)
    (hrun : bench.get_nrun ≠ 0)
    (hmed : median? bench.get_samples = some m)
    (hsd : 0 ≤ stdev ∧ stdev * stdev = sample_variance bench.get_samples) :
    ∃ d w, warn_if_bench_unstable bench stdev = Except.ok (d, w) ∧
      (m ≠ 0 → 1 < bench.get_samples.length →
        ((d = some Verdict.error ↔ 1 / 5 < stdev / m) ∧
         (d = some Verdict.warn ↔ 1 / 10 < stdev / m ∧ stdev / m ≤ 1 / 5) ∧
         (d = some Verdict.stable ↔ stdev / m ≤ 1 / 10))) ∧
      ((m = 0 ∨ bench.get_samples.length ≤ 1) → d = none) := by
  obtain ⟨s, hs⟩ := raw_min?_isSome bench m hmed
  rw [warn_if_bench_unstable, if_neg hrun, hmed]
  simp only [hs]
  refine ⟨_, _, rfl, ?_, ?_⟩
  · intro hm hlen
    rw [if_pos ⟨hm, hlen⟩]
    by_cases h5 : 1 / 5 < stdev / m
    · have h10 : 1 / 10 < stdev / m := by linarith
      rw [if_pos h10, if_pos h5]
      refine ⟨iff_of_true rfl h5, ?_, ?_⟩
      · simp only [Option.some.injEq]
        constructor
        · intro h; cases h
        · intro h; linarith [h.2]
      · simp only [Option.some.injEq]
        constructor
        · intro h; cases h
        · intro h; linarith
    · by_cases h10 : 1 / 10 < stdev / m
      · rw [if_pos h10, if_neg h5]
        refine ⟨?_, iff_of_true rfl ⟨h10, le_of_not_lt h5⟩, ?_⟩
        · simp only [Option.some.injEq]
          constructor
          · intro h; cases h
          · intro h; exact absurd h h5
        · simp only [Option.some.injEq]
          constructor
          · intro h; cases h
          · intro h; linarith
      · rw [if_neg h10]
        refine ⟨?_, ?_, iff_of_true rfl (le_of_not_lt h10)⟩
        · simp only [Option.some.injEq]
          constructor
          · intro h; cases h
          · intro h; exact absurd (by linarith : 1 / 10 < stdev / m) h10
        · simp only [Option.some.injEq]
          constructor
          · intro h; cases h
          · intro h; exact absurd h.1 h10
  · intro hskip
    rw [if_neg]
    rintro ⟨hm, hlen⟩
    rcases hskip with h | h
    · exact hm h
    · omega

/-- C2 witness: one run `[0, 2, 4]` with no warmups has median 2,
standard deviation 2 and ratio 1, so the dispersion verdict is Error. -/
theorem dispersion_check_thresholds_witness :
    ∃ d w,
      warn_if_bench_unstable { warmups := 0, runs := [[0, 2, 4]] } 2 =
        Except.ok (d, w) ∧
      ((2 : ℚ) ≠ 0 → 1 < (Benchmark.get_samples { warmups := 0, runs := [[0, 2, 4]] }).length →
        ((d = some Verdict.error ↔ 1 / 5 < (2 : ℚ) / 2) ∧
         (d = some Verdict.warn ↔ 1 / 10 < (2 : ℚ) / 2 ∧ (2 : ℚ) / 2 ≤ 1 / 5) ∧
         (d = some Verdict.stable ↔ (2 : ℚ) / 2 ≤ 1 / 10))) ∧
      (((2 : ℚ) = 0 ∨ (Benchmark.get_samples { warmups := 0, runs := [[0, 2, 4]] }).length ≤ 1) →
        d = none) :=
  dispersion_check_thresholds { warmups := 0, runs := [[0, 2, 4]] } 2 2
    (by simp [Benchmark.get_nrun])
    (by norm_num [median?, Benchmark.get_samples, List.insertionSort, List.orderedInsert])
    (by norm_num [sample_variance, mean, Benchmark.get_samples])

/-- C3: with `s` the minimum raw sample duration (warmups included), the
minimum-duration verdict is Error exactly when `s < 10 ^ (-6)` s, Warn
exactly when `10 ^ (-6) ≤ s < 10 ^ (-3)` s, Stable otherwise, and the
analyzer returns normally (no verdict raises or alters the exit code). -/
theorem min_duration_check_thresholds (bench : Benchmark) (stdev m s : ℚ)
    (hrun : bench.get_nrun ≠ 0)
    (hmed : median? bench.get_samples = some m)
    (hmin : bench.raw_samples.min? = some s) :
    ∃ d w, warn_if_bench_unstable bench stdev = Except.ok (d, w) ∧
      (w = Verdict.error ↔ s < 1 / 1000000) ∧
      (w = Verdict.warn ↔ 1 / 1000000 ≤ s ∧ s < 1 / 1000) ∧
      (w = Verdict.stable ↔ 1 / 1000 ≤ s) := by
  rw [warn_if_bench_unstable, if_neg hrun, hmed]
  simp only [hmin]
  by_cases h3 : s < 1 / 1000
  · by_cases h6 : s < 1 / 1000000
    · rw [if_pos h3, if_pos h6]
      exact ⟨_, _, rfl,
        iff_of_true rfl h6,
        iff_of_false (fun h => Verdict.noConfusion h)
          (fun h => absurd h6 (not_lt.2 h.1)),
        iff_of_false (fun h => Verdict.noConfusion h)
          (fun h => absurd h3 (not_lt.2 h))⟩
    · rw [if_pos h3, if_neg h6]
      exact ⟨_, _, rfl,
        iff_of_false (fun h => Verdict.noConfusion h) h6,
        iff_of_true rfl ⟨le_of_not_lt h6, h3⟩,
        iff_of_false (fun h => Verdict.noConfusion h)
          (fun h => absurd h3 (not_lt.2 h))⟩
  · rw [if_neg h3]
    exact ⟨_, _, rfl,
      iff_of_false (fun h => Verdict.noConfusion h)
        (fun h => h3 (by linarith)),
      iff_of_false (fun h => Verdict.noConfusion h)
        (fun h => h3 h.2),
      iff_of_true rfl (le_of_not_lt h3)⟩

/-- C3 witness: a single run whose only raw sample took `5 * 10 ^ (-7)` s
satisfies the hypotheses; the minimum-duration verdict there is Error. -/
theorem min_duration_check_thresholds_witness :
    ∃ d w,
      warn_if_bench_unstable { warmups := 0, runs := [[5 / 10000000]] } 0 =
        Except.ok (d, w) ∧
      (w = Verdict.error ↔ (5 / 10000000 : ℚ) < 1 / 1000000) ∧
      (w = Verdict.warn ↔ (1 / 1000000 : ℚ) ≤ 5 / 10000000 ∧ (5 / 10000000 : ℚ) < 1 / 1000) ∧
      (w = Verdict.stable ↔ (1 / 1000 : ℚ) ≤ 5 / 10000000) :=
  min_duration_check_thresholds { warmups := 0, runs := [[5 / 10000000]] }
    0 (5 / 10000000) (5 / 10000000)
    (by simp [Benchmark.get_nrun])
    (by norm_num [median?, Benchmark.get_samples, List.insertionSort, List.orderedInsert])
    (by simp [Benchmark.raw_samples, List.min?])

/-- C8: requesting the stability assessment on a Benchmark with zero
collected runs always fails with the no-run error, before any verdict is
computed. -/
theorem no_run_raises (bench : Benchmark) (stdev : ℚ)
    (h : bench.get_nrun = 0) :
    warn_if_bench_unstable bench stdev = Except.error "benchmark has no run" := by
  rw [warn_if_bench_unstable, if_pos h]

/-- C8 witness: the empty benchmark has zero runs and the assessment fails
with the no-run error. -/
theorem no_run_raises_witness :
    warn_if_bench_unstable { warmups := 1, runs := [] } 0 =
      Except.error "benchmark has no run" :=
  no_run_raises { warmups := 1, runs := [] } 0 rfl

/-! ## Sample collection (TextRunner._range and TextRunner._worker) -/

/-- `TextRunner._range`: yields `(True, 1 + w)` for each warmup and then
`(False, 1 + r)` for each measurement sample. -/
def runner_range (warmups samples : Nat) : List (Bool × Nat) :=
  (List.range warmups).map (fun warmup => (true, 1 + warmup)) ++
    (List.range samples).map (fun run => (false, 1 + run))

/-- Python `round` to the nearest integer, ties to even (used by
`round(sample, 9)`; the model works on exact rationals). -/
def round_half_even (q : ℚ) : ℤ :=
  if q - ⌊q⌋ < 1 / 2 then ⌊q⌋
  else if 1 / 2 < q - ⌊q⌋ then ⌊q⌋ + 1
  else if ⌊q⌋ % 2 = 0 then ⌊q⌋ else ⌊q⌋ + 1

/-- `round(sample, 9)`: round a duration to `10 ^ (-9)` s resolution. -/
def round9 (q : ℚ) : ℚ :=
  (round_half_even (q * 10 ^ 9) : ℚ) / 10 ^ 9

/-- The timed-invocation loop of `TextRunner._worker`: one `sample_func`
invocation per entry of the `_range` sequence, threading the timed
operation's state, each duration rounded to `10 ^ (-9)` s and appended in
order. -/
def worker_collect {σ : Type} (sample_func : Nat → σ → ℚ × σ) (loops : Nat) :
    List (Bool × Nat) → σ → List ℚ × σ
  | [], st => ([], st)
  | _ :: rest, st =>
    let r := sample_func loops st
    let t := worker_collect sample_func loops rest r.2
    (round9 r.1 :: t.1, t.2)

/-- `TextRunner._worker`: collect the samples over `_range warmups samples`
at `bench.loops` loops and append them to the benchmark as one run. -/
def worker {σ : Type} (bench : Benchmark) (sample_func : Nat → σ → ℚ × σ)
    (warmups samples : Nat) (st : σ) : Benchmark × σ :=
  let c := worker_collect sample_func bench.loops (runner_range warmups samples) st
  (bench.add_run c.1, c.2)

/-- The trace of `n` strictly sequential invocations of the timed
operation: the list of returned durations in invocation order, with the
state after the last invocation. -/
def op_trace {σ : Type} (sample_func : Nat → σ → ℚ × σ) (loops : Nat) :
    Nat → σ → List ℚ × σ
  | 0, st => ([], st)
  | n + 1, st =>
    let r := sample_func loops st
    let t := op_trace sample_func loops n r.2
    (r.1 :: t.1, t.2)

theorem op_trace_length {σ : Type} (sample_func : Nat → σ → ℚ × σ)
    (loops : Nat) (n : Nat) :
    ∀ st : σ, (op_trace sample_func loops n st).1.length = n := by
  induction n with
  | zero => intro st; rfl
  | succ n ih => intro st; simp [op_trace, ih]

theorem worker_collect_eq_trace {σ : Type} (sample_func : Nat → σ → ℚ × σ)
    (loops : Nat) (l : List (Bool × Nat)) :
    ∀ st : σ,
      worker_collect sample_func loops l st =
        ((op_trace sample_func loops l.length st).1.map round9,
         (op_trace sample_func loops l.length st).2) := by
  induction l with
  | nil => intro st; rfl
  | cons x rest ih => intro st; simp [worker_collect, op_trace, ih]

theorem runner_range_length (warmups samples : Nat) :
    (runner_range warmups samples).length = warmups + samples := by
  simp [runner_range]

/-- C4: the worker performs exactly `warmups + samples` timed invocations
of the operation at `bench.loops` loops in strict sequence, rounds each
returned duration to `10 ^ (-9)` s, and appends the rounded values, in
collection order with the warmup invocations first, as one run of length
`warmups + samples`. -/
theorem worker_run_shape {σ : Type} (bench : Benchmark)
    (sample_func : Nat → σ → ℚ × σ) (warmups samples : Nat) (st : σ) :
    (worker bench sample_func warmups samples st).1.runs =
      bench.runs ++
        [(op_trace sample_func bench.loops (warmups + samples) st).1.map round9] ∧
    (worker bench sample_func warmups samples st).2 =
      (op_trace sample_func bench.loops (warmups + samples) st).2 ∧
    ((op_trace sample_func bench.loops (warmups + samples) st).1.map round9).length =
      warmups + samples := by
  have h := worker_collect_eq_trace sample_func bench.loops
    (runner_range warmups samples) st
  rw [runner_range_length] at h
  refine ⟨?_, ?_, ?_⟩
  · rw [worker, h]; rfl
  · rw [worker, h]
  · rw [List.length_map, op_trace_length]

/-! ## Parsed arguments and worker spawning -/

/-- The result of `argparser.parse_args()` as the runner reads it (field
defaults are the constructor defaults of `TextRunner.__init__`). -/
structure Args where
  processes : Nat := 25
  samples : Nat := 3
  warmups : Nat := 1
  loops : Nat := 0
  verbose : Nat := 0
  json : Bool := false
  json_file : Option String := none
  min_time : ℚ := 1 / 10
  max_time : ℚ := 1
  raw : Bool := false
  metadata : Bool := false
  affinity : Option String := none
deriving DecidableEq

/-- Python truthiness of an optional string: `None` and the empty string
are falsy. -/
def truthy_str : Option String → Bool
  | none => false
  | some s => s != ""

/-- The child command line built by `TextRunner._spawn_worker` (without the
optional `prepare_subprocess_args` callback). -/
def spawn_worker_args (program_args : List String) (args : Args) : List String :=
  program_args ++
    ["--raw", "--json",
     "--samples", toString args.samples,
     "--warmups", toString args.warmups,
     "--loops", toString args.loops] ++
    (if 0 < args.verbose then ["-" ++ String.mk (List.replicate args.verbose 'v')]
     else []) ++
    (if truthy_str args.affinity then ["--affinity=" ++ args.affinity.getD ""]
     else [])

/-- The observable result of one child process: captured standard output,
captured standard error, exit status. -/
structure ProcResult where
  stdout : String
  stderr : String
  returncode : Int
deriving DecidableEq

/-- The spawn-failure outcome of `_bench_from_subprocess` on a non-zero
exit status: the `RuntimeError` message (naming the command and the exit
code) together with the child output echoed to the orchestrator's own
streams just before the raise. -/
structure SpawnFailure where
  message : String
  echoed_stdout : String
  echoed_stderr : String
deriving DecidableEq

/-- `_bench_from_subprocess`: run the command, and on a non-zero exit
status echo the child's captured stdout/stderr and fail with
`"<args[0]> failed with exit code <returncode>"`; otherwise parse the
child's standard output as a serialized Benchmark (`json_load` models
`perf.Benchmark.json_load`, owned by the external result type). -/
def bench_from_subprocess (json_load : String → Benchmark)
    (run_process : List String → ProcResult) (args : List String) :
    Except SpawnFailure Benchmark :=
  let proc := run_process args
  if proc.returncode ≠ 0 then
    Except.error
      { message := args.headD "" ++ " failed with exit code " ++
          toString proc.returncode,
        echoed_stdout := proc.stdout,
        echoed_stderr := proc.stderr }
  else Except.ok (json_load proc.stdout)

/-- Modelled from the spec: `perf.Benchmark._get_worker_samples` (not under
src/): the child's output "is parsed as one serialized Benchmark fragment
containing exactly one Run; that Run is appended to the aggregate
Benchmark". -/
def get_worker_samples (b : Benchmark) : List ℚ :=
  b.runs.headD []

/-- The loop of `TextRunner._spawn_workers` over the worker indices:
spawn one child per index, sequentially, appending each child's run to the
aggregate; a spawn failure aborts the whole loop. `run_process i` is the
process behavior of the `i`-th spawned child. -/
def spawn_workers_go (json_load : String → Benchmark)
    (run_process : Nat → List String → ProcResult)
    (program_args : List String) (args : Args) :
    List Nat → Benchmark → Except SpawnFailure Benchmark
  | [], bench => Except.ok bench
  | i :: rest, bench =>
    match bench_from_subprocess json_load (run_process i)
        (spawn_worker_args program_args args) with
    | Except.error e => Except.error e
    | Except.ok run_bench =>
        spawn_workers_go json_load run_process program_args args rest
          (bench.add_run (get_worker_samples run_bench))

/-- `TextRunner._spawn_workers`: spawn `args.processes` workers in order. -/
def spawn_workers (json_load : String → Benchmark)
    (run_process : Nat → List String → ProcResult)
    (program_args : List String) (args : Args) (bench : Benchmark) :
    Except SpawnFailure Benchmark :=
  spawn_workers_go json_load run_process program_args args
    (List.range args.processes) bench

/-- Append a list of runs to the aggregate. -/
def add_runs (b : Benchmark) (rs : List (List ℚ)) : Benchmark :=
  { b with runs := b.runs ++ rs }

theorem add_run_add_runs (b : Benchmark) (r : List ℚ) (rs : List (List ℚ)) :
    add_runs (b.add_run r) rs = add_runs b (r :: rs) := by
  simp [add_runs, Benchmark.add_run]

theorem spawn_workers_go_ok (json_load : String → Benchmark)
    (run_process : Nat → List String → ProcResult)
    (program_args : List String) (args : Args) (l : List Nat)
    (hok : ∀ i ∈ l,
      (run_process i (spawn_worker_args program_args args)).returncode = 0) :
    ∀ bench : Benchmark,
      spawn_workers_go json_load run_process program_args args l bench =
        Except.ok (add_runs bench (l.map (fun i =>
          get_worker_samples (json_load
            (run_process i (spawn_worker_args program_args args)).stdout)))) := by
  induction l with
  | nil => intro bench; simp [spawn_workers_go, add_runs]
  | cons i rest ih =>
    intro bench
    have hi := hok i (List.mem_cons_self i rest)
    rw [spawn_workers_go, bench_from_subprocess]
    simp only [hi, ne_eq, not_true_eq_false, if_false]
    rw [ih (fun j hj => hok j (List.mem_cons_of_mem i hj)), add_run_add_runs]
    rfl

theorem spawn_workers_go_append (json_load : String → Benchmark)
    (run_process : Nat → List String → ProcResult)
    (program_args : List String) (args : Args) (l₁ l₂ : List Nat)
    (hok : ∀ i ∈ l₁,
      (run_process i (spawn_worker_args program_args args)).returncode = 0) :
    ∀ bench : Benchmark,
      spawn_workers_go json_load run_process program_args args (l₁ ++ l₂) bench =
        spawn_workers_go json_load run_process program_args args l₂
          (add_runs bench (l₁.map (fun i =>
            get_worker_samples (json_load
              (run_process i (spawn_worker_args program_args args)).stdout)))) := by
  induction l₁ with
  | nil => intro bench; simp [add_runs]
  | cons i rest ih =>
    intro bench
    have hi := hok i (List.mem_cons_self i rest)
    rw [List.cons_append, spawn_workers_go, bench_from_subprocess]
    simp only [hi, ne_eq, not_true_eq_false, if_false]
    rw [ih (fun j hj => hok j (List.mem_cons_of_mem i hj)), add_run_add_runs]
    rfl

/-- C5: when every one of the `P = args.processes` sequentially spawned
workers exits successfully, the aggregate benchmark is `ok`, its runs are
the original runs followed by the `P` worker runs in spawn order, its
`loops` field is untouched, a fresh aggregate ends with exactly `P` runs,
and every worker was invoked by the one command line carrying the `loops`
value resolved before the first spawn. -/
theorem spawn_workers_success (json_load : String → Benchmark)
    (run_process : Nat → List String → ProcResult)
    (program_args : List String) (args : Args) (bench0 : Benchmark)
    (h : ∀ i < args.processes,
      (run_process i (spawn_worker_args program_args args)).returncode = 0) :
    ∃ b, spawn_workers json_load run_process program_args args bench0 =
        Except.ok b ∧
      b.runs = bench0.runs ++ (List.range args.processes).map (fun i =>
        get_worker_samples (json_load
          (run_process i (spawn_worker_args program_args args)).stdout)) ∧
      b.loops = bench0.loops ∧
      (bench0.runs = [] → b.runs.length = args.processes) ∧
      List.IsInfix ["--loops", toString args.loops]
        (spawn_worker_args program_args args) := by
  rw [spawn_workers,
    spawn_workers_go_ok json_load run_process program_args args _
      (fun i hi => h i (List.mem_range.mp hi))]
  refine ⟨_, rfl, rfl, rfl, ?_, ?_⟩
  · intro h0
    simp [add_runs, h0]
  · refine ⟨program_args ++ ["--raw", "--json", "--samples",
      toString args.samples, "--warmups", toString args.warmups],
      (if 0 < args.verbose then
        ["-" ++ String.mk (List.replicate args.verbose 'v')] else []) ++
      (if truthy_str args.affinity then
        ["--affinity=" ++ args.affinity.getD ""] else []), ?_⟩
    simp [spawn_worker_args, List.append_assoc]

/-- C5 witness: two successful workers, each contributing the one-run
benchmark `[[1]]`, give an aggregate with exactly two runs. -/
theorem spawn_workers_success_witness :
    ∃ b, spawn_workers (fun _ => { warmups := 0, loops := 5, runs := [[1]] })
        (fun _ _ => ⟨"", "", 0⟩) ["python"] { processes := 2 }
        { warmups := 1, loops := 7, runs := [] } = Except.ok b ∧
      b.runs = ([] : List (List ℚ)) ++ (List.range 2).map (fun i =>
        get_worker_samples
          ((fun _ => ({ warmups := 0, loops := 5, runs := [[1]] } : Benchmark))
            ((fun _ _ => (⟨"", "", 0⟩ : ProcResult)) i
              (spawn_worker_args ["python"] { processes := 2 })).stdout)) ∧
      b.loops = 7 ∧
      (([] : List (List ℚ)) = [] → b.runs.length = 2) ∧
      List.IsInfix ["--loops", toString (0 : Nat)]
        (spawn_worker_args ["python"] { processes := 2 }) :=
  spawn_workers_success (fun _ => { warmups := 0, loops := 5, runs := [[1]] })
    (fun _ _ => ⟨"", "", 0⟩) ["python"] { processes := 2 }
    { warmups := 1, loops := 7, runs := [] } (fun i _ => rfl)

/-- C6: when the `j`-th spawned worker is the first to exit with a
non-zero status, the whole orchestration fails with a spawn failure whose
message names the command and the exit code and which carries the child's
captured stdout/stderr (echoed to the orchestrator's streams); no aggregate
benchmark, partial or complete, is returned. -/
theorem spawn_workers_failure_aborts (json_load : String → Benchmark)
    (run_process : Nat → List String → ProcResult)
    (program_args : List String) (args : Args) (bench0 : Benchmark) (j : Nat)
    (hj : j < args.processes)
    (hprev : ∀ i < j,
      (run_process i (spawn_worker_args program_args args)).returncode = 0)
    (hfail : (run_process j (spawn_worker_args program_args args)).returncode ≠ 0) :
    spawn_workers json_load run_process program_args args bench0 =
      Except.error
        { message := (spawn_worker_args program_args args).headD "" ++
            " failed with exit code " ++
            toString (run_process j (spawn_worker_args program_args args)).returncode,
          echoed_stdout :=
            (run_process j (spawn_worker_args program_args args)).stdout,
          echoed_stderr :=
            (run_process j (spawn_worker_args program_args args)).stderr } := by
  obtain ⟨k, hk⟩ : ∃ k, args.processes = j + (k + 1) :=
    ⟨args.processes - j - 1, by omega⟩
  rw [spawn_workers, hk, List.range_add,
    spawn_workers_go_append json_load run_process program_args args _ _
      (fun i hi => hprev i (List.mem_range.mp hi)),
    List.range_succ_eq_map]
  simp only [List.map_cons, Nat.add_zero]
  rw [spawn_workers_go, bench_from_subprocess]
  simp only [hfail, ne_eq, not_false_eq_true, if_true, if_pos]

/-- C6 witness: with three requested workers where the second exits with
status 2, the orchestration fails with a spawn failure naming exit code 2
and echoing that child's output. -/
theorem spawn_workers_failure_aborts_witness :
    spawn_workers (fun _ => { warmups := 0, runs := [[1]] })
      (fun i _ => if i = 0 then ⟨"", "", 0⟩ else ⟨"child out", "child err", 2⟩)
      ["python"] { processes := 3 } { warmups := 1, runs := [] } =
      Except.error
        { message := (spawn_worker_args ["python"] { processes := 3 }).headD "" ++
            " failed with exit code " ++
            toString ((fun (i : Nat) (_ : List String) =>
              if i = 0 then (⟨"", "", 0⟩ : ProcResult)
              else ⟨"child out", "child err", 2⟩) 1
              (spawn_worker_args ["python"] { processes := 3 })).returncode,
          echoed_stdout := "child out",
          echoed_stderr := "child err" } :=
  spawn_workers_failure_aborts (fun _ => { warmups := 0, runs := [[1]] })
    (fun i _ => if i = 0 then ⟨"", "", 0⟩ else ⟨"child out", "child err", 2⟩)
    ["python"] { processes := 3 } { warmups := 1, runs := [] } 1
    (by decide)
    (fun i hi => by
      have : i = 0 := by omega
      subst this
      rfl)
    (by simp)

/-! ## CPU affinity (TextRunner._cpu_affinity) -/

/-- The observable outcome of `TextRunner._cpu_affinity`: normal return
(with the CPU set the process was pinned to, if any, and whether the
unable-to-pin warning was printed), an `UnboundLocalError`/`NameError`
raised by reading the local `stream` before assignment, or `sys.exit`. -/
inductive AffinityOutcome
  | done (pinned : Option (List Nat)) (warned : Bool)
  | nameError
  | sysExit (code : Nat)
deriving DecidableEq

/-- Lines 353-362 of `_cpu_affinity`: pin via `os.sched_setaffinity` when
available, else via psutil, else print an ERROR to stderr and then print
guidance to the local `stream` — which is only assigned in the
no-explicit-affinity branch (line 325), so when `stream` is unbound the
guidance print raises before `sys.exit(1)` is reached. -/
def apply_pin (hasSched hasPsutilAff : Bool) (cpus : List Nat)
    (stream_bound : Bool) : AffinityOutcome :=
  if hasSched then AffinityOutcome.done (some cpus) false
  else if hasPsutilAff then AffinityOutcome.done (some cpus) false
  else if stream_bound then AffinityOutcome.sysExit 1
  else AffinityOutcome.nameError

/-- `TextRunner._cpu_affinity`: `hasSched` is `hasattr(os,
'sched_setaffinity')`, `hasPsutilAff` the psutil fallback, `affinity` the
`--affinity` option, `isolated` the detected isolated CPUs, and
`parse_cpu_list` models `perf._parse_cpu_list`. -/
def cpu_affinity (hasSched hasPsutilAff : Bool) (affinity : Option String)
    (isolated : List Nat) (parse_cpu_list : String → List Nat) :
    AffinityOutcome :=
  if !truthy_str affinity then
    if isolated = [] then AffinityOutcome.done none false
    else if !hasSched && !hasPsutilAff then AffinityOutcome.done none true
    else apply_pin hasSched hasPsutilAff isolated true
  else
    apply_pin hasSched hasPsutilAff (parse_cpu_list (affinity.getD "")) false

/-- C7: the silent no-op case and the warn-and-continue case behave as
claimed, but in the explicit-list-with-no-mechanism case the code raises
`UnboundLocalError` (the local `stream` is read at line 360 but only
assigned in the auto-detect branch at line 325) instead of reaching the
intended `sys.exit(1)`. -/
theorem cpu_affinity_cases :
    cpu_affinity false false (some "0") [] (fun _ => [0]) =
      AffinityOutcome.nameError ∧
    cpu_affinity false false (some "0") [] (fun _ => [0]) ≠
      AffinityOutcome.sysExit 1 ∧
    (∀ (c : Nat) (cs : List Nat) (parse_cpu_list : String → List Nat),
      cpu_affinity false false none (c :: cs) parse_cpu_list =
        AffinityOutcome.done none true) ∧
    (∀ (hasSched hasPsutilAff : Bool) (parse_cpu_list : String → List Nat),
      cpu_affinity hasSched hasPsutilAff none [] parse_cpu_list =
        AffinityOutcome.done none false) := by
  refine ⟨rfl, by decide, ?_, ?_⟩
  · intro c cs parse_cpu_list
    simp [cpu_affinity, truthy_str]
  · intro hasSched hasPsutilAff parse_cpu_list
    simp [cpu_affinity, truthy_str]

/-! ## Argument parsing (TextRunner.parse_args) -/

/-- `TextRunner.parse_args`: `stored` is the current `self.args` (set to
`None` in the constructor), `parsed` the value
`self.argparser.parse_args(args)` would produce; the result is the new
`self.args`.  When arguments were already parsed the method returns
immediately without re-parsing. -/
def parse_args (stored : Option Args) (parsed : Args) : Option Args :=
  match stored with
  | some a => some a
  | none => some parsed

/-- C9: the first call stores the parsed arguments, and any subsequent
call on the same runner leaves the stored arguments unchanged. -/
theorem parse_args_idempotent :
    (∀ parsed : Args, parse_args none parsed = some parsed) ∧
    (∀ (stored : Option Args) (p q : Args),
      parse_args (parse_args stored p) q = parse_args stored p) := by
  refine ⟨fun parsed => rfl, ?_⟩
  intro stored p q
  cases stored <;> rfl

/-! ## Structured output (_json_dump) -/

/-- Where `_json_dump` serializes the benchmark: into a named file, onto
standard output, or nowhere. -/
inductive JsonDest
  | file (name : String)
  | stdout
  | nothing
deriving DecidableEq

/-- `_json_dump`: `--json-file=FILENAME` wins over `--json`; with neither,
nothing is written. -/
def json_dump (args : Args) : JsonDest :=
  if truthy_str args.json_file then JsonDest.file (args.json_file.getD "")
  else if args.json then JsonDest.stdout
  else JsonDest.nothing

/-- C10: when both a (non-empty) `--json-file` name and `--json` are
requested, the serialized benchmark goes only to the named file and the
JSON-dump step writes nothing to stdout; when neither is requested it
writes nothing at all. -/
theorem json_dump_destinations :
    (∀ (args : Args) (f : String), args.json_file = some f → f ≠ "" →
      args.json = true →
      json_dump args = JsonDest.file f ∧ json_dump args ≠ JsonDest.stdout) ∧
    (∀ args : Args, args.json_file = none → args.json = false →
      json_dump args = JsonDest.nothing) := by
  constructor
  · intro args f hfile hne hjson
    have : json_dump args = JsonDest.file f := by
      simp [json_dump, truthy_str, hfile, hne]
    exact ⟨this, by rw [this]; intro h; cases h⟩
  · intro args hfile hjson
    simp [json_dump, truthy_str, hfile, hjson]

/-- C10 witness: with `--json-file=out.json --json` the dump goes to the
file only; with neither flag it writes nothing. -/
theorem json_dump_destinations_witness :
    (json_dump { json := true, json_file := some "out.json" } =
        JsonDest.file "out.json" ∧
      json_dump { json := true, json_file := some "out.json" } ≠
        JsonDest.stdout) ∧
    json_dump { json := false, json_file := none } = JsonDest.nothing :=
  ⟨json_dump_destinations.1 { json := true, json_file := some "out.json" }
      "out.json" rfl (by decide) rfl,
    json_dump_destinations.2 { json := false, json_file := none } rfl rfl⟩
